import Mathlib

/-!
Shallow embedding of `src/bin/MetricGrabber.py` (class `MetricGrabber`).

The program is single-threaded; mutation of instance attributes is modelled
by explicit state passing, wall-clock time by an `Int` parameter (seconds),
and the remote CloudWatch service by explicit page lists / oracle inputs.
Python `int(...)` is modelled as `pyInt` returning `Option Int` (`none` is an
uncaught `ValueError`), `str.isdigit()` as `pyIsdigit`, and `str.startswith`
as `pyStartswith`.
-/

namespace MetricGrabber

/-- Python whitespace characters stripped by `int(str)`. -/
def isPySpace (c : Char) : Bool :=
  c == ' ' || c == '\t' || c == '\n' || c == '\r' || c == '\x0b' || c == '\x0c'

/-- Strip leading and trailing whitespace (as Python `int` does before parsing). -/
def pyStrip (l : List Char) : List Char :=
  ((l.dropWhile isPySpace).reverse.dropWhile isPySpace).reverse

/-- Numeric value of a list of decimal digit characters. -/
def digitsVal (l : List Char) : Nat :=
  l.foldl (fun acc c => acc * 10 + (c.toNat - 48)) 0

/-- Core of Python `int(str)`: optional sign followed by a nonempty digit run. -/
def pyIntCore : List Char → Option Int
  | [] => none
  | c :: rest =>
    if c == '+' then
      if !rest.isEmpty && rest.all Char.isDigit then some (digitsVal rest) else none
    else if c == '-' then
      if !rest.isEmpty && rest.all Char.isDigit then some (-(digitsVal rest : Int)) else none
    else
      if (c :: rest).all Char.isDigit then some (digitsVal (c :: rest)) else none

/-- Python `int(s)` for a string `s`; `none` models an uncaught `ValueError`. -/
def pyInt (s : String) : Option Int :=
  pyIntCore (pyStrip s.data)

/-- Python `s.isdigit()`: nonempty and all characters are digits. -/
def pyIsdigit (s : String) : Bool :=
  !s.data.isEmpty && s.data.all Char.isDigit

/-- Python `s.startswith(p)`: `p` is a prefix of the character sequence of `s`. -/
def pyStartswith (s p : String) : Bool :=
  p.data.isPrefixOf s.data

/--
CLI time-window-and-region resolver, `MetricGrabber.__init__` lines 42-57.
`args` is `sys.argv[1:]` (the free-form tokens), `now` the value of
`datetime.datetime.utcnow()` captured as `self.endTime`.  Returns
`(region, startTime, endTime)`; `Except.error` models an uncaught exception
escaping `__init__`.
-/
def resolve (args : List String) (now : Int) : Except String (String × Int × Int) :=
  match args with
  | [a] =>
    if pyIsdigit a then
      match pyInt a with
      | some n => .ok ("us-east-1", now - n, now)
      | none => .error "ValueError"
    else
      .ok (a, now - 300, now)
  | [a, b] =>
    if pyIsdigit a then
      match pyInt a with
      | some n => .ok (b, now - n, now)
      | none => .error "ValueError"
    else
      match pyInt b with
      | some n => .ok (a, now - n, now)
      | none => .error "ValueError"
  | _ => .ok ("us-east-1", now - 300, now)

/--
Rate-limiter state, the instance attributes set in `__init__` lines 62-65:
`maxRequestsPerTimePeriod = 2`, `secondsToSleep = 1`, `totalRequests = 0`,
`requestDateCounter = datetime.datetime.now() + timedelta(seconds=secondsToSleep)`.
-/
structure LimiterState where
  maxRequestsPerTimePeriod : Nat
  secondsToSleep : Int
  totalRequests : Nat
  requestDateCounter : Int
deriving DecidableEq, Repr

/-- Limiter as initialised in `__init__` at local wall-clock time `now`. -/
def initLimiter (now : Int) : LimiterState :=
  { maxRequestsPerTimePeriod := 2
  , secondsToSleep := 1
  , totalRequests := 0
  , requestDateCounter := now + 1 }

/--
The rate-limit block at the top of `printMetrics` (lines 104-109), executed
when `instanceId != None`.  `now` is the wall-clock time on entry; the result
is the new limiter state paired with the seconds slept (`time.sleep` is
modelled as advancing the clock by exactly its argument, so on the sleep path
`datetime.datetime.now()` re-evaluated after the sleep is `now + secondsToSleep`).
-/
def throttle (s : LimiterState) (now : Int) : LimiterState × Int :=
  let s1 : LimiterState := { s with totalRequests := s.totalRequests + 1 }
  if now < s1.requestDateCounter ∧ s1.maxRequestsPerTimePeriod < s1.totalRequests then
    ({ s1 with totalRequests := 0
             , requestDateCounter := (now + s1.secondsToSleep) + s1.secondsToSleep },
     s1.secondsToSleep)
  else
    (s1, 0)

/-- Run a sequence of throttle calls at the given wall-clock times, accumulating
the total seconds slept. -/
def runThrottle (s : LimiterState) : List Int → LimiterState × Int
  | [] => (s, 0)
  | t :: ts =>
    let p := throttle s t
    let q := runThrottle p.1 ts
    (q.1, p.2 + q.2)

/--
One metric descriptor as returned by `list_metrics` (a boto
`Metric` object): `str(i)` is `"Metric:" ++ name`, `i.dimensions` maps a
dimension name to a list of values, `i.Statistics` is the list of statistic
kinds.
-/
structure Metric where
  name : String
  dimensions : List (String × List String)
  Statistics : List String
deriving DecidableEq, Repr

/-- Python `dict.get`: the value bound to `k`, or `None` when absent. -/
def dimGet (dims : List (String × List String)) (k : String) : Option (List String) :=
  (dims.find? fun p => p.1 == k).map Prod.snd

/-- Python truthiness of an optional string (`None` and `""` are falsy). -/
def truthyOptStr : Option String → Bool
  | none => false
  | some s => !(s == "")

/-- Python truthiness of an optional list (`None` and `[]` are falsy). -/
def truthyOptList : Option (List String) → Bool
  | none => false
  | some l => !l.isEmpty

/--
The `instanceId` computed for a descriptor in `grabMetrics` lines 145-150:
`None`, the resolved dimension value, or `["Total"]` in the
`attribute == "MetricName"` aggregate case.
-/
def resolveInstanceId (attr : Option String) (m : Metric) : Option (List String) :=
  if truthyOptStr attr && truthyOptList (dimGet m.dimensions (attr.getD "")) then
    dimGet m.dimensions (attr.getD "")
  else if attr == some "MetricName" && m.dimensions.isEmpty then
    some ["Total"]
  else
    none

/--
Whether `grabMetrics` (lines 152-157) hands descriptor `m` to `printMetrics`
with a truthy `instanceId`: the instance id must be truthy and, when a
`queryType` is configured, `str(i).startswith("Metric:" + queryType)` must hold.
-/
def emitted (attr qt : Option String) (m : Metric) : Bool :=
  truthyOptList (resolveInstanceId attr m) &&
    (!truthyOptStr qt ||
      pyStartswith ("Metric:" ++ m.name) ("Metric:" ++ qt.getD ""))

/-- One page of a paginated listing response: its items and the
optional pagination cursor (`next_token`). -/
structure Page (α : Type) where
  items : List α
  next_token : Option String
deriving DecidableEq, Repr

/--
Items examined by the `while True` loop of `grabMetrics` (lines 141-162) when
the successive responses are `pages`: each page's items in order, continuing
to the next page exactly when the current page carries a cursor.
-/
def grabMetricsRun {α : Type} : List (Page α) → List α
  | [] => []
  | p :: rest =>
    p.items ++ (match p.next_token with
                | some _ => grabMetricsRun rest
                | none => [])

/--
Arguments of one `list_metrics` call; the boto signature is
`list_metrics(next_token=None, dimensions=None, metric_name=None, namespace=None)`
and omitted arguments default to `None`.
-/
structure ListReq where
  next_token : Option String
  dims : Option (List (String × List String))
  metric_name : Option String
  nameSpace : Option String
deriving DecidableEq, Repr

/-- Requests issued after the first by the loop (line 159-160): for each page
carrying a cursor, `list_metrics(metrics.next_token)` with all other
parameters left at their `None` defaults. -/
def subsequentRequests {α : Type} : List (Page α) → List ListReq
  | [] => []
  | p :: rest =>
    match p.next_token with
    | some tok => ⟨some tok, none, none, none⟩ :: subsequentRequests rest
    | none => []

/-- All `list_metrics` requests of one `grabMetrics` run: the initial
`list_metrics(None, None, None, self.namespace)` (line 139) followed by the
cursor-only requests. -/
def grabMetricsRequests {α : Type} (ns : String) (pages : List (Page α)) : List ListReq :=
  ⟨none, none, none, some ns⟩ :: subsequentRequests pages

/-- One statistics data point, a dict returned by `get_metric_statistics`;
it always carries a `Timestamp` key, so it is truthy as a Python dict. -/
structure DataPoint where
  Timestamp : Int
  stats : List (String × Int)
deriving DecidableEq, Repr

/-- The comparison used by `sorted(values, key=lambda val: val['Timestamp'])`. -/
def pointLE (a b : DataPoint) : Bool :=
  a.Timestamp ≤ b.Timestamp

/-- Order in which `printMetrics` (line 125) iterates the fetched data points:
Python `sorted` by the `Timestamp` key (a stable mergesort). -/
def printedPoints (values : List DataPoint) : List DataPoint :=
  values.mergeSort pointLE

/-- The mutable attributes of a `MetricGrabber` relevant to a run: the region
and time window fixed in `__init__`, and the rate-limiter state. -/
structure GrabberState where
  region : String
  startTime : Int
  endTime : Int
  limiter : LimiterState
deriving DecidableEq, Repr

/-- State effect of one `printMetrics(instanceId, i)` call: when `instanceId`
is not `None` the rate-limit block runs (possibly sleeping); everything else
in the method only prints. Returns the new state and the new wall-clock time. -/
def printMetricsSt (st : GrabberState) (now : Int) (instanceId : Option (List String)) :
    GrabberState × Int :=
  match instanceId with
  | none => (st, now)
  | some _ =>
    let p := throttle st.limiter now
    ({ st with limiter := p.1 }, now + p.2)

/-- State effect of the `grabMetrics` loop body for one descriptor
(lines 143-157). -/
def grabMetricsStep (attr qt : Option String) (acc : GrabberState × Int) (m : Metric) :
    GrabberState × Int :=
  let inst := resolveInstanceId attr m
  if truthyOptList inst then
    if truthyOptStr qt then
      if pyStartswith ("Metric:" ++ m.name) ("Metric:" ++ qt.getD "") then
        printMetricsSt acc.1 acc.2 inst
      else acc
    else printMetricsSt acc.1 acc.2 inst
  else acc

/-- State effect of a whole `grabMetrics` run over the given response pages. -/
def runGrabMetrics (attr qt : Option String) (pages : List (Page Metric))
    (st : GrabberState) (now : Int) : GrabberState × Int :=
  (grabMetricsRun pages).foldl (grabMetricsStep attr qt) (st, now)

theorem dropWhile_eq_self_of_head {p : Char → Bool} :
    ∀ (l : List Char), (∀ c ∈ l, p c = false) → l.dropWhile p = l := by
  intro l h
  cases l with
  | nil => rfl
  | cons c cs => simp [List.dropWhile_cons, h c (by simp)]

theorem pyStrip_all_digits (l : List Char) (h : l.all Char.isDigit = true) :
    pyStrip l = l := by
  have hd : ∀ c ∈ l, isPySpace c = false := by
    intro c hc
    have : c.isDigit = true := by
      rw [List.all_eq_true] at h
      exact h c hc
    revert this
    unfold isPySpace Char.isDigit
    intro hdig
    simp only [Bool.or_eq_false_iff]
    refine ⟨⟨⟨⟨⟨?_, ?_⟩, ?_⟩, ?_⟩, ?_⟩, ?_⟩ <;>
      (rw [beq_eq_false_iff_ne]; rintro rfl; simp at hdig)
  rw [pyStrip, dropWhile_eq_self_of_head l hd,
      dropWhile_eq_self_of_head l.reverse (by intro c hc; exact hd c (List.mem_reverse.mp hc)),
      List.reverse_reverse]

theorem throttle_sleep_eq (s : LimiterState) (now : Int)
    (h1 : now < s.requestDateCounter)
    (h2 : s.maxRequestsPerTimePeriod < s.totalRequests + 1) :
    throttle s now =
      ({ s with totalRequests := 0
              , requestDateCounter := (now + s.secondsToSleep) + s.secondsToSleep },
       s.secondsToSleep) := by
  simp only [throttle]
  rw [if_pos ⟨h1, h2⟩]

theorem throttle_nosleep_eq (s : LimiterState) (now : Int)
    (h : ¬(now < s.requestDateCounter ∧ s.maxRequestsPerTimePeriod < s.totalRequests + 1)) :
    throttle s now = ({ s with totalRequests := s.totalRequests + 1 }, 0) := by
  simp only [throttle]
  rw [if_neg h]

theorem runThrottle_total_of_late (ts : List Int) :
    ∀ (s : LimiterState), (∀ t ∈ ts, s.requestDateCounter ≤ t) →
      (runThrottle s ts).2 = 0 := by
  induction ts with
  | nil => intro s _; rfl
  | cons t ts ih =>
    intro s h
    have hp : throttle s t = ({ s with totalRequests := s.totalRequests + 1 }, 0) :=
      throttle_nosleep_eq s t (by
        rintro ⟨h1, _⟩
        exact absurd (h t (by simp)) (not_le.mpr h1))
    have hrest : (runThrottle { s with totalRequests := s.totalRequests + 1 } ts).2 = 0 :=
      ih _ (by intro t' ht'; exact h t' (by simp [ht']))
    simp [runThrottle, hp, hrest]

theorem chain_gap_bounds {c : Int} (hc : 0 ≤ c) :
    ∀ (x : Int) (ts : List Int), List.Chain (fun a b => a + c < b) x ts →
      ∀ t ∈ ts, x + c < t := by
  intro x ts
  induction ts generalizing x with
  | nil => intro _ t ht; simp at ht
  | cons y ys ih =>
    intro h t ht
    rcases List.chain_cons.mp h with ⟨hxy, hrest⟩
    rcases List.mem_cons.mp ht with rfl | hmem
    · exact hxy
    · have := ih y hrest t hmem
      omega

theorem pyInt_of_isdigit (s : String) (h : pyIsdigit s = true) :
    pyInt s = some (digitsVal s.data) := by
  rw [pyIsdigit, Bool.and_eq_true] at h
  obtain ⟨hne, hall⟩ := h
  rw [pyInt, pyStrip_all_digits s.data hall]
  cases hs : s.data with
  | nil => rw [hs] at hne; simp at hne
  | cons c cs =>
    rw [hs] at hall
    have hcd : c.isDigit = true := by
      rw [List.all_eq_true] at hall
      exact hall c (by simp)
    have hplus : (c == '+') = false := by
      rw [beq_eq_false_iff_ne]; rintro rfl; simp [Char.isDigit] at hcd
    have hminus : (c == '-') = false := by
      rw [beq_eq_false_iff_ne]; rintro rfl; simp [Char.isDigit] at hcd
    simp [pyIntCore, hplus, hminus, hall]

/--
C1: every throttle step before a statistics fetch (the rate-limit block at the
top of `printMetrics` with a present instance id) increments `totalRequests`;
then, exactly when the current time is strictly before `requestDateCounter`
AND the incremented count strictly exceeds `maxRequestsPerTimePeriod`
(default 2), the thread sleeps `secondsToSleep` (default 1s), the count is
zeroed and the deadline becomes (post-sleep) now + `secondsToSleep`; in every
other case no sleep occurs and the state is as after the increment.
Consequently, 3 = max+1 calls within less than `secondsToSleep` of the
limiter's window start sleep at least `secondsToSleep` in total, while calls
spaced more than `secondsToSleep` apart never sleep.
-/
theorem C1_throttle_behavior :
    (∀ (s : LimiterState) (now : Int),
        now < s.requestDateCounter →
        s.maxRequestsPerTimePeriod < s.totalRequests + 1 →
        throttle s now =
          ({ s with totalRequests := 0
                  , requestDateCounter := (now + s.secondsToSleep) + s.secondsToSleep },
           s.secondsToSleep)) ∧
    (∀ (s : LimiterState) (now : Int),
        ¬(now < s.requestDateCounter ∧ s.maxRequestsPerTimePeriod < s.totalRequests + 1) →
        throttle s now = ({ s with totalRequests := s.totalRequests + 1 }, 0)) ∧
    (∀ t0 t1 t2 t3 : Int, t0 ≤ t1 → t1 ≤ t2 → t2 ≤ t3 →
        t3 < t0 + (initLimiter t0).secondsToSleep →
        (initLimiter t0).secondsToSleep ≤ (runThrottle (initLimiter t0) [t1, t2, t3]).2) ∧
    (∀ (t0 t1 : Int) (ts : List Int), t0 ≤ t1 →
        List.Chain (fun a b => a + (initLimiter t0).secondsToSleep < b) t1 ts →
        (runThrottle (initLimiter t0) (t1 :: ts)).2 = 0) := by
  refine ⟨throttle_sleep_eq, throttle_nosleep_eq, ?_, ?_⟩
  · intro t0 t1 t2 t3 h01 h12 h23 h3
    have h3' : t3 < t0 + 1 := by simpa [initLimiter] using h3
    show (1 : Int) ≤ (runThrottle ⟨2, 1, 0, t0 + 1⟩ [t1, t2, t3]).2
    have e1 : throttle (⟨2, 1, 0, t0 + 1⟩ : LimiterState) t1 = (⟨2, 1, 1, t0 + 1⟩, 0) := by
      rw [throttle_nosleep_eq _ _ (by norm_num)]
    have e2 : throttle (⟨2, 1, 1, t0 + 1⟩ : LimiterState) t2 = (⟨2, 1, 2, t0 + 1⟩, 0) := by
      rw [throttle_nosleep_eq _ _ (by norm_num)]
    have e3 : throttle (⟨2, 1, 2, t0 + 1⟩ : LimiterState) t3 = (⟨2, 1, 0, t3 + 1 + 1⟩, 1) := by
      rw [throttle_sleep_eq _ _ (by simpa using h3') (by norm_num)]
    simp [runThrottle, e1, e2, e3]
  · intro t0 t1 ts h01 hchain
    show (runThrottle (initLimiter t0) (t1 :: ts)).2 = 0
    have e1 : throttle (initLimiter t0) t1 = (⟨2, 1, 1, t0 + 1⟩, 0) := by
      rw [throttle_nosleep_eq _ _ (by simp [initLimiter])]
      rfl
    have hall : ∀ t ∈ ts, (⟨2, 1, 1, t0 + 1⟩ : LimiterState).requestDateCounter ≤ t := by
      intro t ht
      have hgap := chain_gap_bounds (c := (initLimiter t0).secondsToSleep)
        (by simp [initLimiter]) t1 ts hchain t ht
      simp only [initLimiter] at hgap
      show t0 + 1 ≤ t
      omega
    have hrest := runThrottle_total_of_late ts _ hall
    simp [runThrottle, e1, hrest]

/--
C1 witness: the sleep path, the no-sleep path, the overload scenario and the
spaced-out scenario at concrete inputs.
-/
theorem C1_throttle_behavior_witness :
    throttle ⟨2, 1, 2, 10⟩ 5 = (⟨2, 1, 0, 7⟩, 1) ∧
    throttle ⟨2, 1, 0, 10⟩ 5 = (⟨2, 1, 1, 10⟩, 0) ∧
    (initLimiter 0).secondsToSleep ≤ (runThrottle (initLimiter 0) [0, 0, 0]).2 ∧
    (runThrottle (initLimiter 0) [0, 2, 4]).2 = 0 := by
  refine ⟨?_, ?_, ?_, ?_⟩
  · exact C1_throttle_behavior.1 ⟨2, 1, 2, 10⟩ 5 (by decide) (by decide)
  · exact C1_throttle_behavior.2.1 ⟨2, 1, 0, 10⟩ 5 (by decide)
  · exact C1_throttle_behavior.2.2.1 0 0 0 0 (by decide) (by decide) (by decide) (by decide)
  · exact C1_throttle_behavior.2.2.2 0 0 [2, 4] (by decide)
      (List.Chain.cons (by decide) (List.Chain.cons (by decide) List.Chain.nil))

/--
C5 counterexample: a throttle invocation at time 10, after the deadline
`requestDateCounter = 0` has passed, does not reset `totalRequests` to 0
(it leaves it at its incremented value 6), refuting the claim that the
counter is reset whenever the current time passes `windowResetAt`.
-/
theorem C5_reset_cex :
    (⟨2, 1, 5, 0⟩ : LimiterState).requestDateCounter ≤ 10 ∧
    (throttle ⟨2, 1, 5, 0⟩ 10).1.totalRequests ≠ 0 := by
  decide

/--
C5 amended: `totalRequests` is reset only on the sleep path; a throttle call
at a time at or after `requestDateCounter` leaves the count at its
incremented value, leaves the deadline unchanged, and does not sleep.
-/
theorem C5_reset_amended :
    ∀ (s : LimiterState) (now : Int), s.requestDateCounter ≤ now →
      (throttle s now).1.totalRequests = s.totalRequests + 1 ∧
      (throttle s now).1.requestDateCounter = s.requestDateCounter ∧
      (throttle s now).2 = 0 := by
  intro s now h
  rw [throttle_nosleep_eq s now (by rintro ⟨h1, _⟩; omega)]
  exact ⟨rfl, rfl, rfl⟩

/-- C5 amended witness at the counterexample state. -/
theorem C5_reset_amended_witness :
    (throttle ⟨2, 1, 5, 0⟩ 10).1.totalRequests = 5 + 1 ∧
    (throttle ⟨2, 1, 5, 0⟩ 10).1.requestDateCounter =
      (⟨2, 1, 5, 0⟩ : LimiterState).requestDateCounter ∧
    (throttle ⟨2, 1, 5, 0⟩ 10).2 = 0 :=
  C5_reset_amended ⟨2, 1, 5, 0⟩ 10 (by decide)

theorem subsequentRequests_shape {α : Type} (pages : List (Page α)) :
    ∀ r ∈ subsequentRequests pages,
      r.nameSpace = none ∧ r.dims = none ∧ r.metric_name = none ∧
        r.next_token.isSome = true := by
  induction pages with
  | nil => intro r hr; simp [subsequentRequests] at hr
  | cons p rest ih =>
    intro r hr
    cases htok : p.next_token with
    | none => simp [subsequentRequests, htok] at hr
    | some tok =>
      simp only [subsequentRequests, htok] at hr
      rcases List.mem_cons.mp hr with rfl | hmem
      · exact ⟨rfl, rfl, rfl, rfl⟩
      · exact ih r hmem

/--
C9: in the pagination loop of `grabMetrics`, the first `list_metrics` request
carries the namespace filter and no cursor, and every request after the first
carries only the pagination cursor: its `dimensions`, `metric_name` and
`namespace` parameters are all absent, so later pages are requested without
the original namespace restriction.
-/
theorem C9_later_requests_drop_ns {α : Type} (ns : String) (pages : List (Page α)) :
    (grabMetricsRequests ns pages).head? = some ⟨none, none, none, some ns⟩ ∧
    ∀ r ∈ (grabMetricsRequests ns pages).tail,
      r.nameSpace = none ∧ r.dims = none ∧ r.metric_name = none ∧
        r.next_token.isSome = true := by
  constructor
  · rfl
  · intro r hr
    exact subsequentRequests_shape pages r (by simpa [grabMetricsRequests] using hr)

/-- C9 witness: a two-page run; the single follow-up request carries only the
cursor. -/
theorem C9_later_requests_drop_ns_witness :
    (⟨some "t", none, none, none⟩ : ListReq).nameSpace = none ∧
    (⟨some "t", none, none, none⟩ : ListReq).dims = none ∧
    (⟨some "t", none, none, none⟩ : ListReq).metric_name = none ∧
    (⟨some "t", none, none, none⟩ : ListReq).next_token.isSome = true :=
  (C9_later_requests_drop_ns "AWS/EC2"
      ([⟨[], some "t"⟩, ⟨[], none⟩] : List (Page String))).2
    ⟨some "t", none, none, none⟩
    (by simp [grabMetricsRequests, subsequentRequests])

theorem grabMetricsRun_cons_some {α : Type} (p : Page α) (rest : List (Page α))
    (tok : String) (h : p.next_token = some tok) :
    grabMetricsRun (p :: rest) = p.items ++ grabMetricsRun rest := by
  simp [grabMetricsRun, h]

theorem grabMetricsRun_cons_none {α : Type} (p : Page α) (rest : List (Page α))
    (h : p.next_token = none) :
    grabMetricsRun (p :: rest) = p.items := by
  simp [grabMetricsRun, h]

/--
C2: for every finite chain of pages in which every page except the last
carries a cursor and the last does not, the `grabMetrics` loop processes
every item of every page exactly once, in page order, and terminates with the
cursor-less page (pages supplied beyond it are never consumed).
-/
theorem C2_pagination_complete (α : Type) (pages extra : List (Page α))
    (h1 : pages ≠ [])
    (h2 : ∀ (i : Nat) (p : Page α), i + 1 < pages.length → pages[i]? = some p →
      p.next_token.isSome = true)
    (h3 : ∀ p : Page α, pages[pages.length - 1]? = some p → p.next_token = none) :
    grabMetricsRun (pages ++ extra) = (pages.map Page.items).flatten := by
  induction pages with
  | nil => exact absurd rfl h1
  | cons p rest ih =>
    cases rest with
    | nil =>
      have hlast : p.next_token = none := h3 p rfl
      simp only [List.cons_append, List.nil_append,
        grabMetricsRun_cons_none p extra hlast]
      simp
    | cons q rest2 =>
      have h0 : p.next_token.isSome = true := by
        apply h2 0 p _ rfl
        simp only [List.length_cons]
        omega
      obtain ⟨tok, htok⟩ := Option.isSome_iff_exists.mp h0
      have ih' : grabMetricsRun ((q :: rest2) ++ extra) =
          ((q :: rest2).map Page.items).flatten := by
        apply ih (by simp)
        · intro i p' hi hp'
          apply h2 (i + 1) p'
          · simp only [List.length_cons] at hi ⊢
            omega
          · rw [List.getElem?_cons_succ]
            exact hp'
        · intro p' hp'
          apply h3 p'
          have hlen : (p :: q :: rest2).length - 1 = ((q :: rest2).length - 1) + 1 := by
            simp only [List.length_cons]
            omega
          rw [hlen, List.getElem?_cons_succ]
          exact hp'
      rw [List.cons_append, grabMetricsRun_cons_some p _ tok htok, ih']
      simp

/-- C2 witness: a two-page chain with a stray later page that is never
consumed. -/
theorem C2_pagination_complete_witness :
    grabMetricsRun (([⟨["a", "b"], some "t"⟩, ⟨["c"], none⟩] : List (Page String)) ++
        [⟨["z"], none⟩]) =
      (([⟨["a", "b"], some "t"⟩, ⟨["c"], none⟩] : List (Page String)).map Page.items).flatten :=
  C2_pagination_complete String [⟨["a", "b"], some "t"⟩, ⟨["c"], none⟩] [⟨["z"], none⟩]
    (by simp)
    (by
      intro i p hi hp
      have hi0 : i = 0 := by
        simp only [List.length_cons, List.length_nil] at hi
        omega
      subst hi0
      simp only [List.getElem?_cons_zero, Option.some_inj] at hp
      rw [← hp]
      rfl)
    (by
      intro p hp
      simp only [List.length_cons, List.length_nil] at hp
      simp only [List.getElem?_cons_succ, List.getElem?_cons_zero, Option.some_inj] at hp
      rw [← hp])

/--
C3 counterexample: with three free-form tokens the resolver does not fail; it
produces the default region and window, refuting the claim that any arity
other than zero, one or two tokens fails with an InvalidArguments error.
-/
theorem C3_arity_cex :
    resolve ["a", "b", "c"] 0 = Except.ok ("us-east-1", -300, 0) := by
  rfl

/--
C3 amended: an argument list of three or more tokens is not an error: it
falls through to the default branch of `__init__`, yielding region
"us-east-1" and the window [now-300s, now], the same as zero tokens.
-/
theorem C3_arity_fallthrough :
    ∀ (args : List String) (now : Int), 3 ≤ args.length →
      resolve args now = .ok ("us-east-1", now - 300, now) := by
  intro args now h
  match args with
  | [] => simp at h
  | [a] => simp at h
  | [a, b] => simp at h
  | a :: b :: c :: rest => rfl

/-- C3 amended witness at a concrete three-token input. -/
theorem C3_arity_fallthrough_witness :
    resolve ["a", "b", "c"] 7 = .ok ("us-east-1", 7 - 300, 7) :=
  C3_arity_fallthrough ["a", "b", "c"] 7 (by decide)

/--
C4: the resolver maps each enumerated valid CLI shape to exactly the
specified (region, window) pair: no tokens and one numeric or one non-numeric
token as specified, and for two tokens of which exactly one is a digit
string, that one is the look-back seconds and the other the region, in either
order.
-/
theorem C4_cli_mapping :
    (∀ now : Int, resolve [] now = .ok ("us-east-1", now - 300, now)) ∧
    (∀ (s : String) (n now : Int), pyIsdigit s = true → pyInt s = some n →
      resolve [s] now = .ok ("us-east-1", now - n, now)) ∧
    (∀ (s : String) (now : Int), pyIsdigit s = false →
      resolve [s] now = .ok (s, now - 300, now)) ∧
    (∀ (a b : String) (n now : Int), pyIsdigit a = true → pyIsdigit b = false →
      pyInt a = some n → resolve [a, b] now = .ok (b, now - n, now)) ∧
    (∀ (a b : String) (n now : Int), pyIsdigit a = false → pyIsdigit b = true →
      pyInt b = some n → resolve [a, b] now = .ok (a, now - n, now)) := by
  refine ⟨fun now => rfl, ?_, ?_, ?_, ?_⟩
  · intro s n now hd hint
    simp [resolve, hd, hint]
  · intro s now hd
    simp [resolve, hd]
  · intro a b n now ha hb hint
    simp [resolve, ha, hint]
  · intro a b n now ha hb hint
    simp [resolve, ha, hint]

/-- C4 witness: the spec's own examples plus the reversed two-token order. -/
theorem C4_cli_mapping_witness :
    resolve [] 1000 = .ok ("us-east-1", 1000 - 300, 1000) ∧
    resolve ["300"] 1000 = .ok ("us-east-1", 1000 - 300, 1000) ∧
    resolve ["eu-west-1"] 1000 = .ok ("eu-west-1", 1000 - 300, 1000) ∧
    resolve ["120", "us-west-2"] 1000 = .ok ("us-west-2", 1000 - 120, 1000) ∧
    resolve ["us-west-2", "120"] 1000 = .ok ("us-west-2", 1000 - 120, 1000) := by
  refine ⟨C4_cli_mapping.1 1000, ?_, ?_, ?_, ?_⟩
  · exact C4_cli_mapping.2.1 "300" 300 1000 (by decide) (by decide)
  · exact C4_cli_mapping.2.2.1 "eu-west-1" 1000 (by decide)
  · exact C4_cli_mapping.2.2.2.1 "120" "us-west-2" 120 1000 (by decide) (by decide) (by decide)
  · exact C4_cli_mapping.2.2.2.2 "us-west-2" "120" 120 1000 (by decide) (by decide) (by decide)

/--
C10: a two-token invocation completes without raising exactly when the first
token is a digit string or the second parses as a Python integer literal;
when the first token is non-numeric the second is converted unconditionally,
so a negative literal such as "-5" is accepted as look-back seconds, while
two non-numeric tokens end in an uncaught ValueError.
-/
theorem C10_two_token_accept :
    (∀ (a b : String) (now : Int),
        (∃ r, resolve [a, b] now = .ok r) ↔
          (pyIsdigit a = true ∨ (pyInt b).isSome = true)) ∧
    (∀ (a b : String) (n now : Int), pyIsdigit a = false → pyInt b = some n →
        resolve [a, b] now = .ok (a, now - n, now)) ∧
    resolve ["foo", "bar"] 0 = .error "ValueError" ∧
    resolve ["us-west-2", "-5"] 0 = .ok ("us-west-2", 5, 0) := by
  refine ⟨?_, ?_, by rfl, by rfl⟩
  · intro a b now
    constructor
    · rintro ⟨r, hr⟩
      by_cases hd : pyIsdigit a = true
      · exact Or.inl hd
      · rw [Bool.not_eq_true] at hd
        cases hb : pyInt b with
        | none => simp [resolve, hd, hb] at hr
        | some n => simp
    · rintro (hd | hb)
      · exact ⟨(b, now - (digitsVal a.data : Int), now),
          by simp [resolve, hd, pyInt_of_isdigit a hd]⟩
      · rcases Option.isSome_iff_exists.mp hb with ⟨n, hn⟩
        by_cases hd : pyIsdigit a = true
        · exact ⟨(b, now - (digitsVal a.data : Int), now),
            by simp [resolve, hd, pyInt_of_isdigit a hd]⟩
        · rw [Bool.not_eq_true] at hd
          exact ⟨(a, now - n, now), by simp [resolve, hd, hn]⟩
  · intro a b n now ha hint
    simp [resolve, ha, hint]

/-- C10 witness: the acceptance criterion and the negative-literal case at the
input ["us-west-2", "-5"]. -/
theorem C10_two_token_accept_witness :
    ((∃ r, resolve ["us-west-2", "-5"] 0 = .ok r) ↔
      (pyIsdigit "us-west-2" = true ∨ (pyInt "-5").isSome = true)) ∧
    resolve ["us-west-2", "-5"] 0 = .ok ("us-west-2", 0 - (-5), 0) :=
  ⟨C10_two_token_accept.1 "us-west-2" "-5" 0,
   C10_two_token_accept.2.1 "us-west-2" "-5" (-5) 0 (by decide) (by decide)⟩

theorem isPrefixOf_append_cancel (l a b : List Char) :
    (l ++ a).isPrefixOf (l ++ b) = a.isPrefixOf b := by
  induction l with
  | nil => rfl
  | cons c cs ih => simp [List.isPrefixOf, ih]

theorem pyStartswith_append_cancel (x n q : String) :
    pyStartswith (x ++ n) (x ++ q) = pyStartswith n q := by
  simp only [pyStartswith, String.data_append]
  exact isPrefixOf_append_cancel x.data q.data n.data

theorem truthy_inst_iff (a : String) (m : Metric) (ha : a ≠ "") :
    truthyOptList (resolveInstanceId (some a) m) = true ↔
      ((∃ v, dimGet m.dimensions a = some v ∧ v ≠ []) ∨
        (a = "MetricName" ∧ m.dimensions = [])) := by
  have hta : truthyOptStr (some a) = true := by
    simp [truthyOptStr, ha]
  simp only [resolveInstanceId, Option.getD_some, hta, Bool.true_and]
  cases hd : dimGet m.dimensions a with
  | none =>
    by_cases hme : a = "MetricName"
    · subst hme
      by_cases hdim : m.dimensions = []
      · simp [hd, truthyOptList, hdim]
      · simp [hd, truthyOptList, hdim]
    · simp [hd, truthyOptList, hme]
  | some v =>
    have hdne : m.dimensions ≠ [] := by
      intro h
      rw [h] at hd
      exact Option.noConfusion hd
    by_cases hv : v = []
    · subst hv
      simp [hd, truthyOptList, hdne]
    · simp [hd, truthyOptList, hv]

theorem pattern_part_iff (qt : Option String) (m : Metric) :
    (!truthyOptStr qt ||
        pyStartswith ("Metric:" ++ m.name) ("Metric:" ++ qt.getD "")) = true ↔
      (∀ q, qt = some q → pyStartswith m.name q = true) := by
  cases qt with
  | none => simp [truthyOptStr]
  | some q =>
    by_cases hq : q = ""
    · subst hq
      have hempty : pyStartswith m.name "" = true := by
        simp [pyStartswith]
      simp [truthyOptStr, hempty]
    · simp only [truthyOptStr, Option.getD_some]
      rw [pyStartswith_append_cancel]
      constructor
      · intro h q' hq'
        rcases Option.some_inj.mp hq' with rfl
        simpa [hq] using h
      · intro h
        simpa [hq] using h q rfl

/--
C6: with a configured (truthy) dimension key, a descriptor is handed to
`printMetrics` if and only if its resolved dimension value for that key is
non-empty, or the key is the aggregate pseudo-dimension "MetricName" and the
descriptor has zero dimensions, and in addition the descriptor's name starts
with the configured name pattern (case-sensitive prefix match) whenever one
is configured; in the aggregate case the instance id is the aggregate
series ["Total"].
-/
theorem C6_descriptor_filter :
    ∀ (a : String) (qt : Option String) (m : Metric), a ≠ "" →
      ((emitted (some a) qt m = true ↔
          (((∃ v, dimGet m.dimensions a = some v ∧ v ≠ []) ∨
              (a = "MetricName" ∧ m.dimensions = [])) ∧
            (∀ q, qt = some q → pyStartswith m.name q = true))) ∧
        (a = "MetricName" → m.dimensions = [] →
          resolveInstanceId (some a) m = some ["Total"])) := by
  intro a qt m ha
  constructor
  · rw [emitted, Bool.and_eq_true]
    exact and_congr (truthy_inst_iff a m ha) (pattern_part_iff qt m)
  · intro hme hdim
    subst hme
    rw [resolveInstanceId, Option.getD_some, hdim]
    rfl

/-- C6 witness: the spec's own example, a descriptor with dimensions
containing InstanceId "i-123" under key "InstanceId" and pattern "Network". -/
theorem C6_descriptor_filter_witness :
    ((emitted (some "InstanceId") (some "Network")
          ⟨"NetworkIn", [("InstanceId", ["i-123"])], ["Average"]⟩ = true ↔
        (((∃ v, dimGet [("InstanceId", ["i-123"])] "InstanceId" = some v ∧ v ≠ []) ∨
            ("InstanceId" = "MetricName" ∧
              ([("InstanceId", ["i-123"])] : List (String × List String)) = [])) ∧
          (∀ q, (some "Network" : Option String) = some q →
            pyStartswith "NetworkIn" q = true))) ∧
      ("InstanceId" = "MetricName" →
        ([("InstanceId", ["i-123"])] : List (String × List String)) = [] →
        resolveInstanceId (some "InstanceId")
            ⟨"NetworkIn", [("InstanceId", ["i-123"])], ["Average"]⟩ = some ["Total"])) :=
  C6_descriptor_filter "InstanceId" (some "Network")
    ⟨"NetworkIn", [("InstanceId", ["i-123"])], ["Average"]⟩ (by decide)

/--
C8: the data points of one statistics fetch are printed in ascending
timestamp order regardless of the order the service returned them: the
printed sequence is sorted by timestamp and is a permutation of the fetched
list.
-/
theorem C8_points_sorted (values : List DataPoint) :
    List.Pairwise (fun a b : Int => a ≤ b)
        ((printedPoints values).map DataPoint.Timestamp) ∧
    List.Perm (printedPoints values) values := by
  constructor
  · have htrans : ∀ (a b c : DataPoint),
        pointLE a b → pointLE b c → pointLE a c := by
      intro a b c hab hbc
      simp only [pointLE, decide_eq_true_eq] at *
      omega
    have htotal : ∀ (a b : DataPoint), pointLE a b || pointLE b a := by
      intro a b
      simp only [pointLE, Bool.or_eq_true, decide_eq_true_eq]
      omega
    have h : (values.mergeSort pointLE).Pairwise (fun a b => pointLE a b) :=
      List.sorted_mergeSort htrans htotal values
    rw [List.pairwise_map]
    exact h.imp (by intro a b hab; simpa [pointLE] using hab)
  · exact List.mergeSort_perm values pointLE

theorem printMetricsSt_preserves (st : GrabberState) (now : Int)
    (inst : Option (List String)) :
    (printMetricsSt st now inst).1.region = st.region ∧
    (printMetricsSt st now inst).1.startTime = st.startTime ∧
    (printMetricsSt st now inst).1.endTime = st.endTime := by
  cases inst with
  | none => exact ⟨rfl, rfl, rfl⟩
  | some l => exact ⟨rfl, rfl, rfl⟩

theorem grabMetricsStep_preserves (attr qt : Option String) (acc : GrabberState × Int)
    (m : Metric) :
    (grabMetricsStep attr qt acc m).1.region = acc.1.region ∧
    (grabMetricsStep attr qt acc m).1.startTime = acc.1.startTime ∧
    (grabMetricsStep attr qt acc m).1.endTime = acc.1.endTime := by
  simp only [grabMetricsStep]
  split_ifs
  · exact printMetricsSt_preserves acc.1 acc.2 _
  · exact ⟨rfl, rfl, rfl⟩
  · exact printMetricsSt_preserves acc.1 acc.2 _
  · exact ⟨rfl, rfl, rfl⟩

theorem foldl_step_preserves (attr qt : Option String) (ms : List Metric) :
    ∀ acc : GrabberState × Int,
      (ms.foldl (grabMetricsStep attr qt) acc).1.region = acc.1.region ∧
      (ms.foldl (grabMetricsStep attr qt) acc).1.startTime = acc.1.startTime ∧
      (ms.foldl (grabMetricsStep attr qt) acc).1.endTime = acc.1.endTime := by
  induction ms with
  | nil => intro acc; exact ⟨rfl, rfl, rfl⟩
  | cons m ms ih =>
    intro acc
    rw [List.foldl_cons]
    have h1 := grabMetricsStep_preserves attr qt acc m
    have h2 := ih (grabMetricsStep attr qt acc m)
    exact ⟨h2.1.trans h1.1, h2.2.1.trans h1.2.1, h2.2.2.trans h1.2.2⟩

/--
C7 counterexample: the two-token input with a non-numeric first token and the
negative literal "-5" as second token is accepted by the resolver and yields
startTime = now + 5 > now = endTime, refuting the unconditional start ≤ end
invariant.
-/
theorem C7_window_cex :
    resolve ["eu-1", "-5"] 0 = .ok ("eu-1", 5, 0) ∧ ¬((5 : Int) ≤ 0) :=
  ⟨rfl, by decide⟩

/--
C7 amended: for every CLI input the resolver accepts in which every token
parsed as an integer is non-negative, the window satisfies start ≤ end; and
the window (and region) set in `__init__` is never modified by the metric
polling loop: any `grabMetrics` run (its `printMetrics` calls included)
changes only the rate-limiter state.
-/
theorem C7_window_amended :
    (∀ (args : List String) (now : Int) (r : String) (s e : Int),
        resolve args now = .ok (r, s, e) →
        (∀ t ∈ args, ∀ n : Int, pyInt t = some n → 0 ≤ n) →
        s ≤ e) ∧
    (∀ (attr qt : Option String) (pages : List (Page Metric))
        (st : GrabberState) (now : Int),
        (runGrabMetrics attr qt pages st now).1.region = st.region ∧
        (runGrabMetrics attr qt pages st now).1.startTime = st.startTime ∧
        (runGrabMetrics attr qt pages st now).1.endTime = st.endTime) := by
  constructor
  · intro args now r s e hr hnn
    match args with
    | [] =>
      have heq : resolve [] now = .ok ("us-east-1", now - 300, now) := rfl
      rw [heq] at hr
      simp only [Except.ok.injEq, Prod.mk.injEq] at hr
      obtain ⟨h1, h2, h3⟩ := hr
      omega
    | [a] =>
      by_cases hd : pyIsdigit a = true
      · simp only [resolve, hd, if_true, pyInt_of_isdigit a hd,
          Except.ok.injEq, Prod.mk.injEq] at hr
        obtain ⟨h1, h2, h3⟩ := hr
        have hnat : (0 : Int) ≤ (digitsVal a.data : Int) := Int.natCast_nonneg _
        omega
      · rw [Bool.not_eq_true] at hd
        simp only [resolve, hd, Bool.false_eq_true, if_false,
          Except.ok.injEq, Prod.mk.injEq] at hr
        obtain ⟨h1, h2, h3⟩ := hr
        omega
    | [a, b] =>
      by_cases hd : pyIsdigit a = true
      · simp only [resolve, hd, if_true, pyInt_of_isdigit a hd,
          Except.ok.injEq, Prod.mk.injEq] at hr
        obtain ⟨h1, h2, h3⟩ := hr
        have hnat : (0 : Int) ≤ (digitsVal a.data : Int) := Int.natCast_nonneg _
        omega
      · rw [Bool.not_eq_true] at hd
        cases hb : pyInt b with
        | none =>
          simp [resolve, hd, hb] at hr
        | some n =>
          simp only [resolve, hd, Bool.false_eq_true, if_false, hb,
            Except.ok.injEq, Prod.mk.injEq] at hr
          obtain ⟨h1, h2, h3⟩ := hr
          have hn : 0 ≤ n := hnn b (by simp) n hb
          omega
    | a :: b :: c :: rest =>
      have heq : resolve (a :: b :: c :: rest) now = .ok ("us-east-1", now - 300, now) := rfl
      rw [heq] at hr
      simp only [Except.ok.injEq, Prod.mk.injEq] at hr
      obtain ⟨h1, h2, h3⟩ := hr
      omega
  · intro attr qt pages st now
    exact foldl_step_preserves attr qt (grabMetricsRun pages) (st, now)

/-- C7 amended witness: the window from input ["300"] at now = 1000 and the
invariance of region and window across a concrete `grabMetrics` run that
throttles. -/
theorem C7_window_amended_witness :
    (700 : Int) ≤ 1000 ∧
    ((runGrabMetrics (some "InstanceId") none
        [⟨[⟨"M1", [("InstanceId", ["i-1"])], ["Average"]⟩], none⟩]
        ⟨"us-east-1", 700, 1000, initLimiter 0⟩ 0).1.region = "us-east-1" ∧
      (runGrabMetrics (some "InstanceId") none
        [⟨[⟨"M1", [("InstanceId", ["i-1"])], ["Average"]⟩], none⟩]
        ⟨"us-east-1", 700, 1000, initLimiter 0⟩ 0).1.startTime = 700 ∧
      (runGrabMetrics (some "InstanceId") none
        [⟨[⟨"M1", [("InstanceId", ["i-1"])], ["Average"]⟩], none⟩]
        ⟨"us-east-1", 700, 1000, initLimiter 0⟩ 0).1.endTime = 1000) := by
  constructor
  · apply C7_window_amended.1 ["300"] 1000 "us-east-1" 700 1000 (by rfl)
    intro t ht n hn
    simp only [List.mem_singleton] at ht
    subst ht
    have h300 : pyInt "300" = some 300 := by decide
    rw [h300, Option.some_inj] at hn
    omega
  · exact C7_window_amended.2 (some "InstanceId") none
      [⟨[⟨"M1", [("InstanceId", ["i-1"])], ["Average"]⟩], none⟩]
      ⟨"us-east-1", 700, 1000, initLimiter 0⟩ 0
